import Mathlib

/-!
Verification of the Archivematica Storage Service API layer
(`storage_service/locations/api/resources.py`) against its natural-language
specification.  The definitions below are a shallow embedding of the Python
code: each `def` mirrors one function or code path of the source, with Django
model state made explicit.  Definitions whose doc comment starts with
`Modelled from the spec:` embed repository code that is not part of the
available source tree (the `locations/models.py` model methods and
`common/utils.py` helpers), following the specification's description of them.
-/

namespace StorageService

/-- Package types (`Package.AIP`, `Package.AIC`, `Package.DIP`,
`Package.TRANSFER` constants of `locations/models.py`, as enumerated by the
spec's data model). -/
inductive PackageType
  | AIP
  | AIC
  | DIP
  | Transfer
  deriving DecidableEq, Repr

/-- Location purpose tags (`Location.AIP_STORAGE` etc.). -/
inductive Purpose
  | TransferSource
  | AipStorage
  | DipStorage
  | Backlog
  | CurrentlyProcessing
  | StorageServiceInternal
  | AipRecovery
  | Replicator
  deriving DecidableEq, Repr

/-- Package lifecycle status (`Package.UPLOADED`, `Package.DEL_REQ`, ...). -/
inductive PackageStatus
  | Pending
  | Uploaded
  | Verified
  | DelReq
  | Deleted
  | Fail
  deriving DecidableEq, Repr

/-- The slice of a `Package` record that package intake reads and writes. -/
structure Package where
  package_type : PackageType
  status : PackageStatus
  deriving DecidableEq, Repr

/-- Which storage action `PackageResource.obj_create` dispatches to. -/
inductive StoreAction
  | storeAip
  | backlogTransfer
  | noAction
  deriving DecidableEq, Repr

/-- Error kinds named by the specification's error-handling design. -/
inductive ErrorKind
  | InvalidPairing
  | OriginNotFound
  | ChunkingNotSupported
  deriving DecidableEq, Repr

/-- Outcome of package intake: either the created record is returned
(together with which storage action ran), or an error response.  The source's
`obj_create` only ever returns the bundle; the `error` constructor exists so
that the specification's claimed failure modes are expressible. -/
inductive IntakeOutcome
  | created (pkg : Package) (action : StoreAction)
  | error (kind : ErrorKind)
  deriving DecidableEq, Repr

/-- Modelled from the spec: `Package.store_aip` (`locations/models.py`, not
under the available source) — moves the package bytes into the AIP store and
on success persists the record with status Uploaded. -/
def store_aip (pkg : Package) : Package :=
  { pkg with status := .Uploaded }

/-- Modelled from the spec: `Package.backlog_transfer`
(`locations/models.py`, not under the available source) — moves a transfer
into the backlog location and persists the record with status Uploaded. -/
def backlog_transfer (pkg : Package) : Package :=
  { pkg with status := .Uploaded }

/-- The dispatch condition of `PackageResource.obj_create`
(resources.py:429-441): store AIP/AIC/DIP packages whose current location has
AIP- or DIP-storage purpose; backlog transfers whose current location has
backlog purpose; otherwise fall through (the Python `in` tests on the
two-letter purpose codes reduce to equality on valid enum values). -/
def objCreateAction (t : PackageType) (p : Purpose) : StoreAction :=
  if (t = .AIP ∨ t = .AIC ∨ t = .DIP) ∧ (p = .AipStorage ∨ p = .DipStorage) then
    .storeAip
  else if t = .Transfer ∧ p = .Backlog then
    .backlogTransfer
  else
    .noAction

/-- `PackageResource.obj_create` (resources.py:429-441): after the framework
persists the record, dispatch on (package type, current-location purpose);
when neither branch matches, the bundle is returned with no storage action
and no error. -/
def obj_create (pkg : Package) (purpose : Purpose) : IntakeOutcome :=
  match objCreateAction pkg.package_type purpose with
  | .storeAip => .created (store_aip pkg) .storeAip
  | .backlogTransfer => .created (backlog_transfer pkg) .backlogTransfer
  | .noAction => .created pkg .noAction

/-- The pairings that trigger a storage action in `obj_create`. -/
def allowedPairing (t : PackageType) (p : Purpose) : Prop :=
  ((t = .AIP ∨ t = .AIC ∨ t = .DIP) ∧ (p = .AipStorage ∨ p = .DipStorage)) ∨
    (t = .Transfer ∧ p = .Backlog)

instance (t : PackageType) (p : Purpose) : Decidable (allowedPairing t p) := by
  unfold allowedPairing
  infer_instance

/-! ### Deletion workflow (`PackageResource.delete_aip_request`) -/

/-- Event types (`Event.DELETE`). -/
inductive EventType
  | Delete
  deriving DecidableEq, Repr

/-- Event status (`Event.SUBMITTED`, `Event.APPROVED`, `Event.REJECTED`). -/
inductive EventStatus
  | Submitted
  | Approved
  | Rejected
  deriving DecidableEq, Repr

/-- The slice of an `Event` record written by `delete_aip_request`:
`store_data` is the snapshot of the package status at request time. -/
structure Event where
  event_type : EventType
  status : EventStatus
  event_reason : String
  user_id : Nat
  user_email : String
  store_data : PackageStatus
  deriving DecidableEq, Repr

/-- The request body fields `delete_aip_request` requires (the `pipeline`
lookup is elided: it only resolves a foreign key). -/
structure DeleteRequestInfo where
  event_reason : String
  user_id : Nat
  user_email : String
  deriving DecidableEq, Repr

/-- Database state visible to `delete_aip_request`: one package record and
its associated event rows. -/
structure PkgState where
  package_type : PackageType
  status : PackageStatus
  events : List Event
  deriving DecidableEq, Repr

/-- Responses of `delete_aip_request`: HTTP 405, HTTP 202 on creation, or
the HTTP 200 already-exists response. -/
inductive DelResponse
  | methodNotAllowed
  | created
  | duplicate
  deriving DecidableEq, Repr

/-- The HTTP status code each `delete_aip_request` response carries
(resources.py:450,473,478). -/
def DelResponse.httpStatus : DelResponse → Nat
  | .methodNotAllowed => 405
  | .created => 202
  | .duplicate => 200

/-- Modelled from the spec: `Package.PACKAGE_TYPE_CAN_DELETE`
(`locations/models.py`, not under the available source); the endpoint's
comment says deletion can only be requested on AIPs. -/
def PACKAGE_TYPE_CAN_DELETE : List PackageType := [.AIP, .AIC]

/-- The row predicate of the `Event.objects.filter(package=...,
event_type=DELETE, status=SUBMITTED)` queryset of resources.py:455-456. -/
def isSubmittedDelete (e : Event) : Bool :=
  e.event_type = .Delete ∧ e.status = .Submitted

/-- The `Event.objects.filter(package=..., event_type=DELETE,
status=SUBMITTED)` queryset of resources.py:455-456, as a list filter. -/
def submittedDeleteEvents (st : PkgState) : List Event :=
  st.events.filter isSubmittedDelete

/-- The duplicate check of resources.py:457: proceed iff fewer than one
Submitted delete event exists. -/
def deleteCheck (st : PkgState) : Bool :=
  (submittedDeleteEvents st).length < 1

/-- The act phase of resources.py:458-466: save a new Submitted delete event
whose `store_data` snapshots the package status, then set the package status
to `DEL_REQ`. -/
def deleteAct (st : PkgState) (info : DeleteRequestInfo) : PkgState × DelResponse :=
  let ev : Event :=
    { event_type := .Delete, status := .Submitted,
      event_reason := info.event_reason, user_id := info.user_id,
      user_email := info.user_email, store_data := st.status }
  ({ st with events := st.events ++ [ev], status := .DelReq }, .created)

/-- `PackageResource.delete_aip_request` (resources.py:443-483): reject
non-deletable package types with HTTP 405; if no Submitted delete event
exists, create one and move the package to `DEL_REQ` (HTTP 202); otherwise
leave all state untouched and answer HTTP 200 with the already-exists
message. -/
def delete_aip_request (st : PkgState) (info : DeleteRequestInfo) :
    PkgState × DelResponse :=
  if st.package_type ∉ PACKAGE_TYPE_CAN_DELETE then
    (st, .methodNotAllowed)
  else if deleteCheck st then
    deleteAct st info
  else
    (st, .duplicate)

/-- An interleaved execution of two `delete_aip_request` calls on the same
package in which both duplicate checks (the queryset count of
resources.py:455-457) read the initial state before either act phase
(resources.py:458-466) writes: the schedule check-A, check-B, act-A, act-B.
The source takes no lock and opens no transaction around check and act, so
this interleaving is available to two concurrent requests. -/
def interleavedDeleteRequests (st : PkgState) (a b : DeleteRequestInfo) :
    PkgState × DelResponse × DelResponse :=
  let ca := deleteCheck st
  let cb := deleteCheck st
  let (st1, ra) := if ca then deleteAct st a else (st, .duplicate)
  let (st2, rb) := if cb then deleteAct st1 b else (st1, .duplicate)
  (st2, ra, rb)

/-! ### Path sharding (spec §4.1; observed in test_integration.py:261,310) -/

/-- Hexadecimal digit in the lowercase canonical UUID alphabet. -/
def isHexDigit (c : Char) : Bool :=
  c.isDigit || (('a' : Char) ≤ c && c ≤ ('f' : Char))

/-- Drop the hyphens of a canonical UUID, leaving its 32 hex digits. -/
def stripHyphens (l : List Char) : List Char :=
  l.filter fun c => c ≠ '-'

/-- Split a character list into consecutive groups of four. -/
def chunksOf4 (l : List Char) : List (List Char) :=
  match l with
  | a :: b :: c :: d :: rest => [a, b, c, d] :: chunksOf4 rest
  | [] => []
  | rest => [rest]
termination_by l.length

/-- Modelled from the spec: the path-sharding scheme
(`Package.get_...`/`utils.uuid_to_path` in the repository, not under the
available source; its output is pinned by the expected paths of
test_integration.py:261,310): split the UUID's 32 hexadecimal digits into 8
groups of 4 characters, used as nested directory segments, with the original
file or directory name appended unmodified as the final component. -/
def shardedPathSegments (uuid : List Char) (name : List Char) :
    List (List Char) :=
  chunksOf4 (stripHyphens uuid) ++ [name]

/-! ### Pointer file (`PackageResource.pointer_file_request`) -/

/-- Whether the stored package is a single compressed file or an
uncompressed directory. -/
inductive Compression
  | compressedFile
  | uncompressedDir
  deriving DecidableEq, Repr

/-- The slice of a stored package the pointer-file endpoint reads. -/
structure StoredPackage where
  compression : Compression
  pointer_path : String
  deriving DecidableEq, Repr

/-- Response of a file-streaming endpoint.  `internalError` exists so that
the specification's distinction between a valid absence (404) and an
internal error (500) is expressible. -/
inductive StreamResponse
  | ok (path : String)
  | notFound
  | internalError
  deriving DecidableEq, Repr

/-- Modelled from the spec: `Package.full_pointer_file_path`
(`locations/models.py`, not under the available source) — the pointer file
path for a compressed package; an uncompressed (directory) package has no
pointer file by design, so no path exists for it. -/
def full_pointer_file_path (p : StoredPackage) : Option String :=
  match p.compression with
  | .compressedFile => some p.pointer_path
  | .uncompressedDir => none

/-- Modelled from the spec: `utils.download_file_stream`
(`common/utils.py`, not under the available source; its behaviour is pinned
by test_integration.py:266-267,314-315) — streams the file at the given path
with HTTP 200, and answers HTTP 404 NotFound when no file exists there. -/
def download_file_stream (path : Option String) : StreamResponse :=
  match path with
  | some p => .ok p
  | none => .notFound

/-- `PackageResource.pointer_file_request` (resources.py:529-534): resolve
the pointer-file path and stream it. -/
def pointer_file_request (p : StoredPackage) : StreamResponse :=
  download_file_stream (full_pointer_file_path p)

/-! ### Fixity check (`PackageResource.check_fixity_request`) -/

/-- The bagit failure classes the endpoint inspects (`bagit.FileMissing`,
`bagit.ChecksumMismatch` with `expected`/`found`/`algorithm`,
`bagit.UnexpectedFile`), each carrying its path and message. -/
inductive FixityFailure
  | fileMissing (path message : String)
  | checksumMismatch (path expected found algorithm message : String)
  | unexpectedFile (path message : String)
  deriving DecidableEq, Repr

/-- The dict appended for a missing file (resources.py:554-557). -/
structure MissingInfo where
  path : String
  message : String
  deriving DecidableEq, Repr

/-- The dict appended for a digest mismatch (resources.py:560-566):
path, expected digest, actual digest, hash algorithm, message. -/
structure ChangedInfo where
  path : String
  expected : String
  actual : String
  hash_type : String
  message : String
  deriving DecidableEq, Repr

/-- The dict appended for an unexpected file (resources.py:569-572). -/
structure UntrackedInfo where
  path : String
  message : String
  deriving DecidableEq, Repr

/-- The `response["failures"]["files"]` breakdown (resources.py:543-549). -/
structure FixityBreakdown where
  missing : List MissingInfo
  changed : List ChangedInfo
  untracked : List UntrackedInfo
  deriving DecidableEq, Repr

/-- The full response body of `check_fixity_request`. -/
structure FixityResponse where
  success : Bool
  message : String
  failures : FixityBreakdown
  deriving DecidableEq, Repr

/-- One iteration of the classification loop of resources.py:552-573:
append the failure's info dict to the matching list. -/
def fixityStep (acc : FixityBreakdown) (f : FixityFailure) : FixityBreakdown :=
  match f with
  | .fileMissing p m =>
      { acc with missing := acc.missing ++ [⟨p, m⟩] }
  | .checksumMismatch p e a alg m =>
      { acc with changed := acc.changed ++ [⟨p, e, a, alg, m⟩] }
  | .unexpectedFile p m =>
      { acc with untracked := acc.untracked ++ [⟨p, m⟩] }

/-- The classification loop of resources.py:552-573: walk the failure list
in order, appending each failure's info dict to the matching list. -/
def classifyFailures (fs : List FixityFailure) : FixityBreakdown :=
  fs.foldl fixityStep ⟨[], [], []⟩

/-- `PackageResource.check_fixity_request` (resources.py:536-578): take the
`(success, failures, message)` triple returned by `Package.check_fixity` and
build the structured response. -/
def check_fixity_request (success : Bool) (failures : List FixityFailure)
    (message : String) : FixityResponse :=
  { success := success, message := message,
    failures := classifyFailures failures }

/-- The info dict a failure contributes to the `missing` list, if any. -/
def missingProj : FixityFailure → Option MissingInfo
  | .fileMissing p m => some ⟨p, m⟩
  | _ => none

/-- The info dict a failure contributes to the `changed` list, if any. -/
def changedProj : FixityFailure → Option ChangedInfo
  | .checksumMismatch p e a alg m => some ⟨p, e, a, alg, m⟩
  | _ => none

/-- The info dict a failure contributes to the `untracked` list, if any. -/
def untrackedProj : FixityFailure → Option UntrackedInfo
  | .unexpectedFile p m => some ⟨p, m⟩
  | _ => none

/-! ### Download (`PackageResource.download_request`) -/

/-- The `StorageException` of `locations/models.py`, raised by backends
without the requested capability. -/
structure StorageException where
  msg : String
  deriving DecidableEq, Repr

/-- The slice of a package the download endpoint uses:
`get_download_path` may raise `StorageException` (e.g. chunking not
supported); `compress_package` builds a whole-package compressed copy and
returns its path together with a temporary directory. -/
structure DownloadPackage where
  get_download_path : Option Nat → Except StorageException String
  compress_package : String × String

/-- Response of the download endpoint; `error` exists so that the claim
that no `StorageException` reaches the caller is expressible. -/
inductive DownloadResponse
  | stream (path : String)
  | error (e : StorageException)
  deriving DecidableEq, Repr

/-- `PackageResource.download_request` (resources.py:510-527): try
`package.get_download_path(chunk_number)`; on `StorageException` fall back
to `package.compress_package()` and stream the compressed copy. -/
def download_request (p : DownloadPackage) (chunk_number : Option Nat) :
    DownloadResponse :=
  match p.get_download_path chunk_number with
  | .ok full_path => .stream full_path
  | .error _ => .stream p.compress_package.1

/-! ### Endpoint wrapper (`_custom_endpoint`, resources.py:47-95) -/

/-- Result of the `resource._meta.queryset.get(uuid=...)` lookup
(resources.py:66-71). -/
inductive LookupResult (α : Type)
  | found (obj : α)
  | notFound
  | multiple
  deriving DecidableEq, Repr

/-- Responses a wrapped endpoint can produce: one of the wrapper's early
rejections, or the wrapped function's own response. -/
inductive EndpointResponse (ρ : Type)
  | httpNotFound
  | httpMultipleChoices
  | httpBadRequest
  | ok (r : ρ)
  deriving DecidableEq, Repr

/-- The early-rejection response for a given lookup outcome: 404 when the
UUID matches nothing, 400 (missing required field) otherwise. -/
def earlyResponse {α ρ : Type} (lookup : LookupResult α) : EndpointResponse ρ :=
  match lookup with
  | .notFound => .httpNotFound
  | _ => .httpBadRequest

/-- The wrapper produced by `_custom_endpoint` (resources.py:47-95).
`lookup` is the outcome of the queryset lookup; `deserialized` is the
decoded request body as its list of keys, `none` when deserialization threw
(the source then substitutes the empty list, resources.py:77-79); `func` is
the decorated endpoint, given the object and body and allowed to change
state `st`.  The wrapper rejects with 404/300/400 before ever calling
`func`; otherwise it calls `func` and returns its response. -/
def customEndpointWrapper {α σ ρ : Type} (required_fields : List String)
    (lookup : LookupResult α) (deserialized : Option (List String))
    (func : α → List String → σ → σ × ρ) (st : σ) :
    σ × EndpointResponse ρ :=
  match lookup with
  | .notFound => (st, .httpNotFound)
  | .multiple => (st, .httpMultipleChoices)
  | .found obj =>
    let data := deserialized.getD []
    if required_fields.all fun k => data.contains k then
      let (st2, r) := func obj data st
      (st2, .ok r)
    else
      (st, .httpBadRequest)

/-- The inputs on which the wrapper rejects before dispatch, per the claim:
the UUID matches no record, or a declared required field is absent from the
deserialized body (a failed deserialization counting as the empty body). -/
def rejectsEarly {α : Type} (required_fields : List String)
    (lookup : LookupResult α) (deserialized : Option (List String)) : Prop :=
  lookup = .notFound ∨
    ((∃ obj, lookup = .found obj) ∧
      ∃ k ∈ required_fields, (deserialized.getD []).contains k = false)

/-! ### Bulk file move (`LocationResource.post_detail`, resources.py:289-360) -/

/-- One element of the `files` list of the POST body: the `source` and
`destination` values, `none` when the key is missing (`sip_file.get(...,
None)`, resources.py:335-336). -/
structure MoveEntry where
  source : Option String
  destination : Option String
  deriving DecidableEq, Repr

/-- Python truthiness of the value `sip_file.get(key, None)`: `None` and the
empty string are falsy (the `all([source_path, destination_path])` test of
resources.py:337). -/
def truthy : Option String → Bool
  | none => false
  | some s => s ≠ ""

/-- The relative-path roots of the origin and destination locations, which
the loop prefixes onto each entry (resources.py:339-342). -/
structure MoveCtx where
  origin_rel : String
  dest_rel : String
  deriving DecidableEq, Repr

/-- The `(source_path, destination_path)` pair one entry's move operates on,
after `os.path.flatten` with each location's relative path. -/
def performedMove (ctx : MoveCtx) (e : MoveEntry) : String × String :=
  (ctx.origin_rel ++ "/" ++ e.source.getD "",
   ctx.dest_rel ++ "/" ++ e.destination.getD "")

/-- Response of the file-moving loop: HTTP 400, or the success body
`{error: None, message: 'Files moved successfully'}`. -/
inductive MoveResponse
  | badRequest
  | okMoved
  deriving DecidableEq, Repr

/-- The loop of resources.py:334-356: walk `files` in order; for each entry
with truthy source and destination, perform the move (recorded by appending
the performed pair to `moved`); on the first entry lacking one, return HTTP
400 immediately, leaving every earlier move in place. -/
def moveFilesLoop (ctx : MoveCtx) (files : List MoveEntry)
    (moved : List (String × String)) :
    List (String × String) × MoveResponse :=
  match files with
  | [] => (moved, .okMoved)
  | e :: rest =>
    if truthy e.source && truthy e.destination then
      moveFilesLoop ctx rest (moved ++ [performedMove ctx e])
    else
      (moved, .badRequest)

/-- The file-moving portion of `LocationResource.post_detail`: run the loop
starting from no moves performed. -/
def post_detail_moves (ctx : MoveCtx) (files : List MoveEntry) :
    List (String × String) × MoveResponse :=
  moveFilesLoop ctx files []

/-! ## Theorems -/

/-- C1 counterexample: the spec claims that interring an AIP-typed package
into a Backlog-purpose location fails with `InvalidPairing`; on the code,
`obj_create` at exactly that input returns the created record with no
storage action and no error — the intake does not fail. -/
theorem C1_claim_counterexample :
    obj_create ⟨.AIP, .Pending⟩ .Backlog =
      .created ⟨.AIP, .Pending⟩ .noAction ∧
    obj_create ⟨.AIP, .Pending⟩ .Backlog ≠ .error .InvalidPairing := by
  constructor
  · rfl
  · intro h
    exact IntakeOutcome.noConfusion h

/-- C1 (amended): for every disallowed (package type, destination-location
purpose) pairing — AIP into Backlog included — `obj_create` invokes no
storage action (no bytes are moved) and returns the record unchanged without
any error; for an AIP into an AIP-Storage-purpose location the store
proceeds and the resulting package has status Uploaded. -/
theorem C1_intake_pairing (pkg : Package) (purpose : Purpose) :
    (¬ allowedPairing pkg.package_type purpose →
      obj_create pkg purpose = .created pkg .noAction) ∧
    (pkg.package_type = .AIP → purpose = .AipStorage →
      obj_create pkg purpose =
        .created { pkg with status := .Uploaded } .storeAip) := by
  obtain ⟨t, s⟩ := pkg
  refine ⟨fun h => ?_, fun h1 h2 => ?_⟩
  · cases t <;> cases purpose <;>
      first
        | rfl
        | exact absurd (by simp [allowedPairing]) h
  · cases h1
    cases h2
    rfl

/-- Witness for C1: the amended theorem evaluated at the two concrete
pairings named by the claim. -/
theorem C1_intake_pairing_witness :
    obj_create ⟨.AIP, .Pending⟩ .Backlog =
      .created ⟨.AIP, .Pending⟩ .noAction ∧
    obj_create ⟨.AIP, .Pending⟩ .AipStorage =
      .created ⟨.AIP, .Uploaded⟩ .storeAip :=
  ⟨(C1_intake_pairing ⟨.AIP, .Pending⟩ .Backlog).1 (by decide),
   (C1_intake_pairing ⟨.AIP, .Pending⟩ .AipStorage).2 rfl rfl⟩

/-- Any package state with a Submitted delete event has a nonempty
submitted-delete-events queryset. -/
theorem submittedDeleteEvents_pos (st : PkgState)
    (hdup : ∃ e ∈ st.events, e.event_type = .Delete ∧ e.status = .Submitted) :
    0 < (submittedDeleteEvents st).length := by
  obtain ⟨e, he, h1, h2⟩ := hdup
  have hmem : e ∈ submittedDeleteEvents st := by
    unfold submittedDeleteEvents
    rw [List.mem_filter]
    exact ⟨he, by simp [isSubmittedDelete, h1, h2]⟩
  exact List.length_pos.mpr (List.ne_nil_of_mem hmem)

/-- C2: a deletion request on a deletable package that already has a
Submitted delete event returns the HTTP 200 already-exists response — a
distinct no-op outcome, not a failure — creating no event and leaving the
package status and event set unchanged. -/
theorem C2_duplicate_request_noop (st : PkgState) (info : DeleteRequestInfo)
    (hdel : st.package_type ∈ PACKAGE_TYPE_CAN_DELETE)
    (hdup : ∃ e ∈ st.events, e.event_type = .Delete ∧ e.status = .Submitted) :
    delete_aip_request st info = (st, .duplicate) ∧
    (delete_aip_request st info).2.httpStatus = 200 := by
  have hpos := submittedDeleteEvents_pos st hdup
  have hcheck : deleteCheck st = false := by
    unfold deleteCheck
    simp only [decide_eq_false_iff_not, not_lt]
    omega
  constructor <;>
    simp [delete_aip_request, hdel, hcheck, DelResponse.httpStatus]

/-- Witness for C2: a concrete AIP with one Submitted delete event. -/
theorem C2_duplicate_request_noop_witness :
    delete_aip_request
        ⟨.AIP, .DelReq, [⟨.Delete, .Submitted, "bad checksum", 1, "u", .Uploaded⟩]⟩
        ⟨"again", 2, "v"⟩ =
      (⟨.AIP, .DelReq, [⟨.Delete, .Submitted, "bad checksum", 1, "u", .Uploaded⟩]⟩,
        .duplicate) :=
  (C2_duplicate_request_noop
    ⟨.AIP, .DelReq, [⟨.Delete, .Submitted, "bad checksum", 1, "u", .Uploaded⟩]⟩
    ⟨"again", 2, "v"⟩ (by decide)
    ⟨⟨.Delete, .Submitted, "bad checksum", 1, "u", .Uploaded⟩,
      List.mem_singleton.mpr rfl, rfl, rfl⟩).1

/-- A package state with no Submitted delete event has an empty
submitted-delete-events queryset. -/
theorem submittedDeleteEvents_nil (st : PkgState)
    (hnone : ∀ e ∈ st.events,
      ¬(e.event_type = .Delete ∧ e.status = .Submitted)) :
    submittedDeleteEvents st = [] := by
  unfold submittedDeleteEvents
  rw [List.filter_eq_nil_iff]
  intro e he
  simpa [isSubmittedDelete] using hnone e he

/-- C3: a deletion request on a deletable package with no outstanding
Submitted delete event creates exactly one new event — Submitted, with
`store_data` snapshotting the package's status at request time — and moves
the package to `DEL_REQ`, answering HTTP 202. -/
theorem C3_delete_request_creates_event (st : PkgState)
    (info : DeleteRequestInfo)
    (hdel : st.package_type ∈ PACKAGE_TYPE_CAN_DELETE)
    (hnone : ∀ e ∈ st.events,
      ¬(e.event_type = .Delete ∧ e.status = .Submitted)) :
    delete_aip_request st info =
      ({ st with
          events := st.events ++
            [{ event_type := .Delete, status := .Submitted,
               event_reason := info.event_reason, user_id := info.user_id,
               user_email := info.user_email, store_data := st.status }],
          status := .DelReq }, .created) := by
  have hnil := submittedDeleteEvents_nil st hnone
  have hcheck : deleteCheck st = true := by
    unfold deleteCheck
    simp [hnil]
  simp [delete_aip_request, hdel, hcheck, deleteAct]

/-- Witness for C3: a fresh Uploaded AIP with no events. -/
theorem C3_delete_request_creates_event_witness :
    delete_aip_request ⟨.AIP, .Uploaded, []⟩ ⟨"obsolete", 3, "w"⟩ =
      (⟨.AIP, .DelReq,
        [⟨.Delete, .Submitted, "obsolete", 3, "w", .Uploaded⟩]⟩, .created) :=
  C3_delete_request_creates_event ⟨.AIP, .Uploaded, []⟩ ⟨"obsolete", 3, "w"⟩
    (by decide) (by intro e he; simp at he)

/-- For deletable package types, `delete_aip_request` is exactly the
check-then-act composition: the duplicate check of resources.py:455-457
followed, when it passes, by the act of resources.py:458-466. -/
theorem delete_aip_request_eq_check_act (st : PkgState)
    (info : DeleteRequestInfo)
    (hdel : st.package_type ∈ PACKAGE_TYPE_CAN_DELETE) :
    delete_aip_request st info =
      if deleteCheck st then deleteAct st info else (st, .duplicate) := by
  simp [delete_aip_request, hdel]

/-- C4 counterexample: the claim asserts that two concurrent
deletion-request submissions deterministically yield exactly one Submitted
event and one DuplicateRequest response, and that at most one Submitted
event exists in every reachable state.  The source's check and act are not
serialized (no lock, no transaction), so the interleaving in which both
checks read before either act writes is reachable; on a fresh Uploaded AIP
it creates two Submitted delete events and answers both requests with the
created response. -/
theorem C4_claim_counterexample :
    (submittedDeleteEvents
      (interleavedDeleteRequests ⟨.AIP, .Uploaded, []⟩
        ⟨"r1", 1, "u1"⟩ ⟨"r2", 2, "u2"⟩).1).length = 2 ∧
    (interleavedDeleteRequests ⟨.AIP, .Uploaded, []⟩
      ⟨"r1", 1, "u1"⟩ ⟨"r2", 2, "u2"⟩).2 = (.created, .created) := by
  constructor <;> rfl

/-- C4 (amended): the submission is an unserialized check-then-act, so the
exactly-one-Submitted-event guarantee holds only for serialized executions:
running two `delete_aip_request` calls sequentially on a deletable package
with no outstanding Submitted event yields exactly one Submitted event, the
first answering created and the second answering the DuplicateRequest
response; the interleaved schedule of `C4_claim_counterexample` escapes this
guarantee. -/
theorem C4_serialized_delete_requests (st : PkgState)
    (a b : DeleteRequestInfo)
    (hdel : st.package_type ∈ PACKAGE_TYPE_CAN_DELETE)
    (hnone : ∀ e ∈ st.events,
      ¬(e.event_type = .Delete ∧ e.status = .Submitted)) :
    (submittedDeleteEvents
      (delete_aip_request (delete_aip_request st a).1 b).1).length = 1 ∧
    (delete_aip_request st a).2 = .created ∧
    (delete_aip_request (delete_aip_request st a).1 b).2 = .duplicate := by
  have hnil := submittedDeleteEvents_nil st hnone
  have hcheck : deleteCheck st = true := by
    unfold deleteCheck
    simp [hnil]
  have hfirst : delete_aip_request st a = deleteAct st a := by
    rw [delete_aip_request_eq_check_act st a hdel, if_pos hcheck]
  have hev1 : submittedDeleteEvents (deleteAct st a).1 =
      [{ event_type := .Delete, status := .Submitted,
         event_reason := a.event_reason, user_id := a.user_id,
         user_email := a.user_email, store_data := st.status }] := by
    unfold submittedDeleteEvents at hnil ⊢
    unfold deleteAct
    simp only [List.filter_append, hnil, List.nil_append]
    simp [isSubmittedDelete]
  have hdel1 : (deleteAct st a).1.package_type ∈ PACKAGE_TYPE_CAN_DELETE := by
    simpa [deleteAct] using hdel
  have hcheck1 : deleteCheck (deleteAct st a).1 = false := by
    unfold deleteCheck
    rw [hev1]
    simp
  have hsecond : delete_aip_request (deleteAct st a).1 b =
      ((deleteAct st a).1, .duplicate) := by
    rw [delete_aip_request_eq_check_act _ b hdel1, if_neg (by simp [hcheck1])]
  refine ⟨?_, ?_, ?_⟩
  · rw [hfirst, hsecond, hev1]
    rfl
  · rw [hfirst]
    rfl
  · rw [hfirst, hsecond]

/-- Witness for C4's amended theorem: two sequential requests on a fresh
Uploaded AIP. -/
theorem C4_serialized_delete_requests_witness :
    (submittedDeleteEvents
      (delete_aip_request
        (delete_aip_request ⟨.AIP, .Uploaded, []⟩ ⟨"r1", 1, "u1"⟩).1
        ⟨"r2", 2, "u2"⟩).1).length = 1 :=
  (C4_serialized_delete_requests ⟨.AIP, .Uploaded, []⟩
    ⟨"r1", 1, "u1"⟩ ⟨"r2", 2, "u2"⟩ (by decide)
    (by intro e he; simp at he)).1

/-- The canonical hyphenated form of a UUID whose five hyphen-separated
groups are `g1`-`g5`. -/
def hyphenated (g1 g2 g3 g4 g5 : List Char) : List Char :=
  g1 ++ '-' :: (g2 ++ '-' :: (g3 ++ '-' :: (g4 ++ '-' :: g5)))

/-- Splitting a list of length `4 * k` into groups of four yields `k`
groups, each of length 4, whose concatenation is the original list. -/
theorem chunksOf4_spec (k : Nat) (l : List Char) (h : l.length = 4 * k) :
    (chunksOf4 l).length = k ∧ (∀ c ∈ chunksOf4 l, c.length = 4) ∧
      (chunksOf4 l).flatten = l := by
  induction k generalizing l with
  | zero =>
    have hl : l = [] := List.length_eq_zero.mp (by omega)
    subst hl
    simp [chunksOf4]
  | succ n ih =>
    cases l with
    | nil => simp at h
    | cons a t1 =>
      cases t1 with
      | nil => simp at h; omega
      | cons b t2 =>
        cases t2 with
        | nil => simp at h; omega
        | cons c t3 =>
          cases t3 with
          | nil => simp at h; omega
          | cons d rest =>
            have hr : rest.length = 4 * n := by
              simp at h
              omega
            obtain ⟨ih1, ih2, ih3⟩ := ih rest hr
            refine ⟨?_, ?_, ?_⟩
            · simp [chunksOf4, ih1]
            · intro s hs
              simp only [chunksOf4, List.mem_cons] at hs
              rcases hs with rfl | hs
              · rfl
              · exact ih2 s hs
            · simp [chunksOf4, ih3]

/-- A list of hexadecimal digits is unchanged by hyphen stripping. -/
theorem stripHyphens_of_hex (g : List Char)
    (hg : ∀ c ∈ g, isHexDigit c = true) :
    stripHyphens g = g := by
  unfold stripHyphens
  rw [List.filter_eq_self]
  intro a ha
  have hhex := hg a ha
  have hne : a ≠ '-' := by
    intro hcontra
    subst hcontra
    exact absurd hhex (by decide)
  simpa using hne

/-- Hyphen stripping distributes over concatenation. -/
theorem stripHyphens_append (l1 l2 : List Char) :
    stripHyphens (l1 ++ l2) = stripHyphens l1 ++ stripHyphens l2 := by
  unfold stripHyphens
  simp [List.filter_append]

/-- Hyphen stripping drops a leading hyphen. -/
theorem stripHyphens_hyphen_cons (l : List Char) :
    stripHyphens ('-' :: l) = stripHyphens l := by
  unfold stripHyphens
  simp [List.filter_cons]

/-- Hyphen stripping of the canonical hyphenated form recovers the 32 hex
digits in order. -/
theorem stripHyphens_hyphenated (g1 g2 g3 g4 g5 : List Char)
    (hhex : ∀ c ∈ g1 ++ g2 ++ g3 ++ g4 ++ g5, isHexDigit c = true) :
    stripHyphens (hyphenated g1 g2 g3 g4 g5) =
      g1 ++ g2 ++ g3 ++ g4 ++ g5 := by
  have h1 : ∀ c ∈ g1, isHexDigit c = true := fun c hc => hhex c (by simp [hc])
  have h2 : ∀ c ∈ g2, isHexDigit c = true := fun c hc => hhex c (by simp [hc])
  have h3 : ∀ c ∈ g3, isHexDigit c = true := fun c hc => hhex c (by simp [hc])
  have h4 : ∀ c ∈ g4, isHexDigit c = true := fun c hc => hhex c (by simp [hc])
  have h5 : ∀ c ∈ g5, isHexDigit c = true := fun c hc => hhex c (by simp [hc])
  unfold hyphenated
  rw [stripHyphens_append, stripHyphens_hyphen_cons,
    stripHyphens_append, stripHyphens_hyphen_cons,
    stripHyphens_append, stripHyphens_hyphen_cons,
    stripHyphens_append, stripHyphens_hyphen_cons,
    stripHyphens_of_hex g1 h1, stripHyphens_of_hex g2 h2,
    stripHyphens_of_hex g3 h3, stripHyphens_of_hex g4 h4,
    stripHyphens_of_hex g5 h5]
  simp

/-- C5: for every UUID in canonical hyphenated form (five hex groups of
lengths 8-4-4-4-12), the derived storage path consists of exactly 8
four-character segments whose concatenation is the UUID's 32 hex digits in
order, followed by the original file or directory name unmodified as the
final component.  (Determinism is immediate: `shardedPathSegments` is a pure
function of its arguments.) -/
theorem C5_path_sharding (g1 g2 g3 g4 g5 name : List Char)
    (h1 : g1.length = 8) (h2 : g2.length = 4) (h3 : g3.length = 4)
    (h4 : g4.length = 4) (h5 : g5.length = 12)
    (hhex : ∀ c ∈ g1 ++ g2 ++ g3 ++ g4 ++ g5, isHexDigit c = true) :
    (chunksOf4 (stripHyphens (hyphenated g1 g2 g3 g4 g5))).length = 8 ∧
    (∀ s ∈ chunksOf4 (stripHyphens (hyphenated g1 g2 g3 g4 g5)),
      s.length = 4) ∧
    (chunksOf4 (stripHyphens (hyphenated g1 g2 g3 g4 g5))).flatten =
      g1 ++ g2 ++ g3 ++ g4 ++ g5 ∧
    shardedPathSegments (hyphenated g1 g2 g3 g4 g5) name =
      chunksOf4 (stripHyphens (hyphenated g1 g2 g3 g4 g5)) ++ [name] ∧
    (shardedPathSegments (hyphenated g1 g2 g3 g4 g5) name).getLast? =
      some name := by
  have hstrip := stripHyphens_hyphenated g1 g2 g3 g4 g5 hhex
  have hlen : (stripHyphens (hyphenated g1 g2 g3 g4 g5)).length = 4 * 8 := by
    rw [hstrip]
    simp [h1, h2, h3, h4, h5]
  obtain ⟨hc1, hc2, hc3⟩ := chunksOf4_spec 8 _ hlen
  refine ⟨hc1, hc2, by rw [hc3, hstrip], rfl, ?_⟩
  unfold shardedPathSegments
  simp

/-- Witness for C5: the UUID and stored filename of
test_integration.py:236-261. -/
theorem C5_path_sharding_witness :
    (chunksOf4 (stripHyphens (hyphenated
      ['5', '6', '5', '8', 'e', '6', '0', '3']
      ['2', '7', '7', 'b'] ['4', '2', '9', '2'] ['9', 'b', '5', '8']
      ['2', '0', 'b', 'f', '2', '6', '1', 'c', '8', 'f', '8', '8']))).flatten =
      ['5', '6', '5', '8', 'e', '6', '0', '3'] ++
        ['2', '7', '7', 'b'] ++ ['4', '2', '9', '2'] ++ ['9', 'b', '5', '8'] ++
        ['2', '0', 'b', 'f', '2', '6', '1', 'c', '8', 'f', '8', '8'] :=
  (C5_path_sharding
    ['5', '6', '5', '8', 'e', '6', '0', '3']
    ['2', '7', '7', 'b'] ['4', '2', '9', '2'] ['9', 'b', '5', '8']
    ['2', '0', 'b', 'f', '2', '6', '1', 'c', '8', 'f', '8', '8']
    ['a', 'i', 'p', '.', '7', 'z']
    rfl rfl rfl rfl rfl (by decide)).2.2.1

/-- C6: a pointer-file request for a stored uncompressed (directory)
package answers NotFound — a valid absence, not an internal error — while
for a stored single-file compressed package the pointer file is streamed
with success. -/
theorem C6_pointer_file (p : StoredPackage) :
    (p.compression = .uncompressedDir →
      pointer_file_request p = .notFound ∧
      pointer_file_request p ≠ .internalError) ∧
    (p.compression = .compressedFile →
      pointer_file_request p = .ok p.pointer_path) := by
  obtain ⟨c, path⟩ := p
  cases c <;>
    simp [pointer_file_request, full_pointer_file_path, download_file_stream]

/-- Witness for C6: one uncompressed and one compressed stored package. -/
theorem C6_pointer_file_witness :
    pointer_file_request ⟨.uncompressedDir, "p"⟩ = .notFound ∧
    pointer_file_request ⟨.compressedFile, "p"⟩ = .ok "p" :=
  ⟨((C6_pointer_file ⟨.uncompressedDir, "p"⟩).1 rfl).1,
   (C6_pointer_file ⟨.compressedFile, "p"⟩).2 rfl⟩

/-- The classification loop from an arbitrary accumulator: each failure's
info dict is appended to the matching list, in input order. -/
theorem fixityStep_foldl (fs : List FixityFailure) (acc : FixityBreakdown) :
    fs.foldl fixityStep acc =
      ⟨acc.missing ++ fs.filterMap missingProj,
       acc.changed ++ fs.filterMap changedProj,
       acc.untracked ++ fs.filterMap untrackedProj⟩ := by
  induction fs generalizing acc with
  | nil => simp
  | cons f tl ih =>
    cases f <;>
      simp [fixityStep, ih, missingProj, changedProj, untrackedProj]

/-- C7: for every fixity outcome — any mix of missing, mismatched and
untracked failures, and any overall success flag — the response carries the
structured three-list breakdown: each digest mismatch appears in `changed`
with its path, expected digest, actual digest and hash algorithm; each
absent file in `missing`; each unexpected file in `untracked`; in input
order, even when the overall check fails. -/
theorem C7_fixity_breakdown (success : Bool) (failures : List FixityFailure)
    (message : String) :
    (check_fixity_request success failures message).failures.missing =
      failures.filterMap missingProj ∧
    (check_fixity_request success failures message).failures.changed =
      failures.filterMap changedProj ∧
    (check_fixity_request success failures message).failures.untracked =
      failures.filterMap untrackedProj ∧
    (check_fixity_request success failures message).success = success ∧
    (check_fixity_request success failures message).message = message := by
  unfold check_fixity_request classifyFailures
  rw [fixityStep_foldl]
  exact ⟨by simp, by simp, by simp, rfl, rfl⟩

/-- C8: whenever obtaining the (possibly chunked) download path raises
`StorageException`, the download endpoint falls back to the whole-package
compressed copy and streams it; no download request ever surfaces the
exception to the caller. -/
theorem C8_download_fallback (p : DownloadPackage) (chunk : Option Nat) :
    (∀ e, p.get_download_path chunk = .error e →
      download_request p chunk = .stream p.compress_package.1) ∧
    (∀ e, download_request p chunk ≠ .error e) := by
  constructor
  · intro e he
    unfold download_request
    rw [he]
  · intro e
    unfold download_request
    cases p.get_download_path chunk <;>
      exact fun h => DownloadResponse.noConfusion h

/-- Witness for C8: a backend without chunked storage, whose
`get_download_path` raises. -/
theorem C8_download_fallback_witness :
    download_request
      ⟨fun _ => .error ⟨"chunking not supported"⟩, ("pkg.7z", "tmpdir")⟩
      none = .stream "pkg.7z" :=
  (C8_download_fallback
    ⟨fun _ => .error ⟨"chunking not supported"⟩, ("pkg.7z", "tmpdir")⟩
    none).1 ⟨"chunking not supported"⟩ rfl

/-- C9: for every endpoint wrapped by `_custom_endpoint`, if the requested
UUID matches no record the response is NotFound, and if a declared required
field is absent from the deserialized body (a failed deserialization
counting as the empty body) the response is BadRequest; in both cases the
state is unchanged and the wrapped operation is never invoked — the result
does not depend on the wrapped function. -/
theorem C9_wrapper_early_rejection {α σ ρ : Type}
    (required_fields : List String) (lookup : LookupResult α)
    (deserialized : Option (List String))
    (f g : α → List String → σ → σ × ρ) (st : σ)
    (h : rejectsEarly required_fields lookup deserialized) :
    customEndpointWrapper required_fields lookup deserialized f st =
      (st, earlyResponse lookup) ∧
    customEndpointWrapper required_fields lookup deserialized f st =
      customEndpointWrapper required_fields lookup deserialized g st := by
  rcases h with h | ⟨⟨obj, hobj⟩, k, hk, hkc⟩
  · subst h
    exact ⟨rfl, rfl⟩
  · subst hobj
    have hknot : k ∉ deserialized.getD [] := by
      simpa using hkc
    have hcond : ¬ ∀ x ∈ required_fields, x ∈ deserialized.getD [] :=
      fun hc => hknot (hc k hk)
    constructor <;>
      simp [customEndpointWrapper, earlyResponse, hcond]

/-- Witness for C9: a UUID matching no record; the two wrapped functions
act differently on the state, yet the outcome is the same 404. -/
theorem C9_wrapper_early_rejection_witness :
    @customEndpointWrapper Nat Nat Nat ["event_reason"] .notFound none
      (fun _ _ s => (s + 1, 0)) 0 = (0, .httpNotFound) :=
  (@C9_wrapper_early_rejection Nat Nat Nat ["event_reason"] .notFound none
    (fun _ _ s => (s + 1, 0)) (fun _ _ s => (s + 2, 1)) 0 (Or.inl rfl)).1

/-- The moving loop from an arbitrary list of already-performed moves: on a
list whose first incomplete entry is `bad`, every entry before `bad` is
moved in order and the loop stops with HTTP 400. -/
theorem moveFilesLoop_first_bad (ctx : MoveCtx) (good : List MoveEntry)
    (bad : MoveEntry) (rest : List MoveEntry)
    (moved : List (String × String))
    (hgood : ∀ e ∈ good, truthy e.source = true ∧ truthy e.destination = true)
    (hbad : truthy bad.source = false ∨ truthy bad.destination = false) :
    moveFilesLoop ctx (good ++ bad :: rest) moved =
      (moved ++ good.map (performedMove ctx), .badRequest) := by
  induction good generalizing moved with
  | nil =>
    rcases hbad with h | h <;> simp [moveFilesLoop, h]
  | cons e tl ih =>
    have he := hgood e (by simp)
    have htl : ∀ x ∈ tl, truthy x.source = true ∧ truthy x.destination = true :=
      fun x hx => hgood x (by simp [hx])
    simp only [List.cons_append, moveFilesLoop, he.1, he.2, Bool.and_self,
      if_pos, List.map_cons, List.append_eq]
    rw [ih _ htl]
    simp

/-- C10: the bulk file move of `post_detail` is not atomic across its input
list: on a `files` list whose first entry lacking a truthy source or
destination is `bad`, the response is BadRequest, while exactly the entries
before `bad` have already been moved, in list order, and are not rolled
back; nothing at or after `bad` is moved. -/
theorem C10_partial_move (ctx : MoveCtx) (good : List MoveEntry)
    (bad : MoveEntry) (rest : List MoveEntry)
    (hgood : ∀ e ∈ good, truthy e.source = true ∧ truthy e.destination = true)
    (hbad : truthy bad.source = false ∨ truthy bad.destination = false) :
    post_detail_moves ctx (good ++ bad :: rest) =
      (good.map (performedMove ctx), .badRequest) := by
  unfold post_detail_moves
  rw [moveFilesLoop_first_bad ctx good bad rest [] hgood hbad]
  simp

/-- Witness for C10: one complete entry, then an entry missing its source,
then a further complete entry that is never reached. -/
theorem C10_partial_move_witness :
    post_detail_moves ⟨"orig", "dest"⟩
      [⟨some "a", some "b"⟩, ⟨none, some "c"⟩, ⟨some "d", some "e"⟩] =
      ([("orig/a", "dest/b")], .badRequest) :=
  C10_partial_move ⟨"orig", "dest"⟩ [⟨some "a", some "b"⟩] ⟨none, some "c"⟩
    [⟨some "d", some "e"⟩]
    (by intro e he; simp at he; simp [he, truthy])
    (Or.inl rfl)

end StorageService
